import Mathlib

/-!
Verification development for the portfolio-chatbot RAG pipeline
(`backend/app/rag/hybrid_retriever.py` and `backend/app/rag/chain.py`).

The Python code is shallowly embedded: pure functions become Lean
functions; calls to external services (the ensemble retriever, the vector
retriever, the LLM backends) are parameters supplying their outcomes, with
`Except` modelling raised exceptions.  Python floats in the re-ranking
score are exact multiples of 0.5 far below the precision limit, so the
score is stored doubled as an integer (weights 2.0 / 5.0 / 1.5 become
4 / 10 / 3); a bridge theorem relates it to the rational-valued formula.
Python's `list.sort` is a stable sort; it is embedded as the stable
`List.insertionSort` (any two stable sorts of the same keyed list agree).
-/

namespace Chatbot

/-- ASCII lowercasing of a string, character by character
(model of Python `str.lower()` on the ASCII strings used here). -/
def toLowerStr (s : String) : String := ⟨s.data.map Char.toLower⟩

/-- Accumulator-style word splitter over characters: splits on whitespace
runs and drops empty pieces. -/
def wordsAux : List Char → List Char → List (List Char)
  | [], acc => if acc.isEmpty then [] else [acc.reverse]
  | c :: cs, acc =>
    if c.isWhitespace then
      (if acc.isEmpty then wordsAux cs [] else acc.reverse :: wordsAux cs [])
    else wordsAux cs (c :: acc)

/-- Model of Python `str.split()` (no argument): split on whitespace runs,
no empty words. -/
def pyWords (s : String) : List String := (wordsAux s.data []).map fun w => ⟨w⟩

/-- Model of Python's substring test `needle in hay` on strings. -/
def substrB (needle hay : String) : Bool := decide (needle.data <:+: hay.data)

/-- A retrieved chunk: `page_content` text plus string-valued metadata
(model of `langchain.schema.Document` as used by this code). -/
structure Document where
  page_content : String
  metadata : List (String × String)
deriving DecidableEq

/-- `QueryClassifier.QUERY_TYPES` (hybrid_retriever.py lines 83-91), in the
source's insertion order. -/
def QUERY_TYPES : List (String × List String) :=
  [("skills", ["skill", "technology", "programming", "language", "framework", "tool"]),
   ("projects", ["project", "built", "created", "developed", "work on", "github"]),
   ("experience", ["experience", "worked", "job", "role", "position", "internship"]),
   ("education", ["education", "degree", "university", "studied", "graduated"]),
   ("contact", ["contact", "email", "phone", "reach", "linkedin", "github"]),
   ("about", ["about", "who", "background", "summary", "tell me"]),
   ("chatbot", ["chatbot", "how do you work", "what are you", "how does this work"])]

/-- `QueryClassifier.classify` (hybrid_retriever.py lines 93-111): lowercase
the query, return the first category whose keyword list has a substring
match, else "general". -/
def classify (query : String) : String :=
  let query_lower := toLowerStr query
  match QUERY_TYPES.find? (fun ck => ck.2.any fun kw => substrB kw query_lower) with
  | some ck => ck.1
  | none => "general"

/-- The `filters` table of `QueryClassifier.get_section_filter`
(hybrid_retriever.py lines 124-131). -/
def section_filters : List (String × List (String × String)) :=
  [("skills", [("section", "technical_skills")]),
   ("projects", [("section", "key_projects")]),
   ("experience", [("section", "professional_experience")]),
   ("education", [("section", "education")]),
   ("contact", [("type", "profile")]),
   ("about", [("section", "professional_summary")])]

/-- `QueryClassifier.get_section_filter` (hybrid_retriever.py lines 113-133):
`filters.get(category, {})`. -/
def get_section_filter (category : String) : List (String × String) :=
  (section_filters.lookup category).getD []

/-- `HybridRetriever.get_relevant_documents` (hybrid_retriever.py lines
41-58): try the ensemble retriever; on any exception fall back to the
vector retriever's outcome.  The two retrievers are parameters giving the
outcome of each call; `Except.error` models a raised exception. -/
def hybrid_get_relevant_documents {E : Type}
    (ensemble vector : String → Except E (List Document)) (query : String) :
    Except E (List Document) :=
  match ensemble query with
  | Except.ok results => Except.ok results
  | Except.error _ => vector query

/-- The `expansions` table of `SmartRetriever._expand_query`
(hybrid_retriever.py lines 207-215). -/
def expansions : List (String × List String) :=
  [("skills", ["expertise", "technologies", "tools", "proficient", "experienced"]),
   ("projects", ["portfolio", "built", "developed", "created", "work"]),
   ("experience", ["worked", "employment", "job", "role", "career"]),
   ("education", ["degree", "studied", "qualification", "university", "academic"]),
   ("contact", ["email", "phone", "reach", "linkedin", "connect"]),
   ("about", ["background", "summary", "bio", "profile", "overview"])]

/-- `SmartRetriever._expand_query` (hybrid_retriever.py lines 196-221):
append the first two expansion terms of the category, if any.  (The source
indexes `terms[0]` and `terms[1]` whenever `terms` is non-empty; every list
in the static table has five entries, so the two-element pattern is the
only reachable case.) -/
def expand_query (query category : String) : String :=
  match (expansions.lookup category).getD [] with
  | t0 :: t1 :: _ => query ++ " " ++ t0 ++ " " ++ t1
  | _ => query

/-- The relevance score of `SmartRetriever._rerank_documents`
(hybrid_retriever.py lines 242-252), stored doubled so that it is an
integer: source weights 2.0, 5.0, 1.5 become 4, 10, 3.  All Python float
values arising there are exact multiples of 0.5, so doubling is an order
isomorphism and no comparison is changed. -/
def relevanceScore (query : String) (doc : Document) : ℤ :=
  let query_lower := toLowerStr query
  let query_words := (pyWords query_lower).toFinset
  let content_lower := toLowerStr doc.page_content
  let content_words := (pyWords content_lower).toFinset
  let word_overlap : ℤ := (query_words ∩ content_words).card
  let exact_match : ℤ := if substrB query_lower content_lower then 10 else 0
  let subword_matches : ℤ := (query_words.filter fun qw => substrB qw content_lower).card
  word_overlap * 4 + exact_match + subword_matches * 3

/-- Ordering used by the re-ranker: descending by score (first component).
`scored.sort(reverse=True, key=lambda x: x[0])` keeps ties in input order,
exactly the behaviour of a stable sort under this relation. -/
def scoreGe (a b : ℤ × Document) : Prop := b.1 ≤ a.1

instance : DecidableRel scoreGe := fun a b => inferInstanceAs (Decidable (b.1 ≤ a.1))

instance : IsTotal (ℤ × Document) scoreGe := ⟨fun a b => le_total b.1 a.1⟩

instance : IsTrans (ℤ × Document) scoreGe := ⟨fun _ _ _ hab hbc => le_trans hbc hab⟩

/-- `SmartRetriever._rerank_documents` (hybrid_retriever.py lines 223-259):
score each document against the query, stable-sort descending by score,
return the top `k`. -/
def rerank_documents (documents : List Document) (query : String) (k : ℕ) :
    List Document :=
  if documents.isEmpty then documents
  else
    let scored := documents.map fun doc => (relevanceScore query doc, doc)
    (((scored.insertionSort scoreGe).map Prod.snd).take k)

/-- The metadata test of the filter in `SmartRetriever.get_relevant_documents`
(hybrid_retriever.py lines 181-187): `any(doc.metadata.get(key) == value
for key, value in section_filter.items())`. -/
def docMatchesFilter (section_filter : List (String × String)) (doc : Document) : Bool :=
  section_filter.any fun kv => doc.metadata.lookup kv.1 == some kv.2

/-- `SmartRetriever.get_relevant_documents` (hybrid_retriever.py lines
150-194): classify, expand, retrieve via the hybrid retriever (a parameter
supplying its result list), re-rank against the original query, then
optionally filter by category metadata, keeping the unfiltered list when
the filter would leave nothing.  Note the source's `_rerank_documents`
already truncates to `k`. -/
def smart_get_relevant_documents (hybrid : String → List Document)
    (query : String) (use_filter : Bool) (k : ℕ) : List Document :=
  let category := classify query
  let results := rerank_documents (hybrid (expand_query query category)) query k
  if use_filter && (category != "general") then
    let section_filter := get_section_filter category
    if section_filter.isEmpty then results.take k
    else
      let filtered := results.filter (docMatchesFilter section_filter)
      if filtered.isEmpty then results.take k else filtered.take k
  else results.take k

/-- The relevance-score formula exactly as the spec states it (section 4.3):
`2×(shared-word count) + 5 if exact substring else 0 + 1.5×(count of query
words appearing anywhere in chunk text)`, as a rational. -/
def specRelevanceScore (query : String) (doc : Document) : ℚ :=
  2 * (((pyWords (toLowerStr query)).toFinset ∩
        (pyWords (toLowerStr doc.page_content)).toFinset).card : ℚ)
  + (if substrB (toLowerStr query) (toLowerStr doc.page_content) then (5 : ℚ) else 0)
  + (3 / 2 : ℚ) *
      (((pyWords (toLowerStr query)).toFinset.filter
         fun qw => substrB qw (toLowerStr doc.page_content)).card : ℚ)

/-- The Smart Retriever pipeline in the step order the spec claims
(claim C6): re-rank the FULL candidate list without truncation, apply the
category filter to that full list, and truncate to `k` only as the final
step.  Written for comparison with `smart_get_relevant_documents`, which
follows the source. -/
def smart_get_spec_order (hybrid : String → List Document)
    (query : String) (use_filter : Bool) (k : ℕ) : List Document :=
  let category := classify query
  let scored := (hybrid (expand_query query category)).map
    fun doc => (relevanceScore query doc, doc)
  let results := (scored.insertionSort scoreGe).map Prod.snd
  if use_filter && (category != "general") then
    let section_filter := get_section_filter category
    if section_filter.isEmpty then results.take k
    else
      let filtered := results.filter (docMatchesFilter section_filter)
      if filtered.isEmpty then results.take k else filtered.take k
  else results.take k

/-- One entry of the caller-supplied conversation history:
`{"role": ..., "content": ...}`. -/
structure ConversationTurn where
  role : String
  content : String
deriving DecidableEq

/-- One message held by `ConversationBufferMemory.chat_memory`: its
`type` is "human" or "ai" as produced by `add_user_message` /
`add_ai_message`. -/
structure ChatMessage where
  type : String
  content : String
deriving DecidableEq

/-- `RAGChain._update_memory` (chain.py lines 301-316): clear the memory,
then append a "human" message for each "user" turn and an "ai" message for
each "assistant" turn, in history order (other roles are skipped).  The
first argument is the memory content before the call; it is discarded by
`self.memory.clear()`. -/
def update_memory (mem : List ChatMessage)
    (conversation_history : List ConversationTurn) : List ChatMessage :=
  let _ := mem
  conversation_history.foldl
    (fun acc message =>
      if message.role = "user" then acc ++ [⟨"human", message.content⟩]
      else if message.role = "assistant" then acc ++ [⟨"ai", message.content⟩]
      else acc)
    []

/-- `RAGChain.get_conversation_history` (chain.py lines 323-339): walk the
stored messages, mapping "human" to a "user" turn and "ai" to an
"assistant" turn (other types are skipped). -/
def get_conversation_history (mem : List ChatMessage) : List ConversationTurn :=
  mem.foldl
    (fun history message =>
      if message.type = "human" then history ++ [⟨"user", message.content⟩]
      else if message.type = "ai" then history ++ [⟨"assistant", message.content⟩]
      else history)
    []

/-- The message type a role is stored under by `_update_memory`,
for roles "user" and "assistant". -/
def roleToType (role : String) : String := if role = "user" then "human" else "ai"

/-- The configuration of one `ChatOpenAI` (or free) LLM instance: the model
identifier and the sampling settings it was constructed with. -/
structure LLMSettings where
  model : String
  temperature : ℚ
  max_tokens : ℕ
deriving DecidableEq

/-- The retriever object handed to `RAGChain.__init__`, identified by an
id; `hybrid_vector_rid` is `some v` when the object has a
`hybrid_retriever` attribute whose `vector_retriever` has id `v`
(the SmartRetriever case of chain.py lines 94-100). -/
structure RetrieverRef where
  rid : ℕ
  hybrid_vector_rid : Option ℕ
deriving DecidableEq

/-- The base retriever extraction of chain.py lines 94-100: the wrapped
vector retriever when the object has a `hybrid_retriever` attribute,
otherwise the object itself. -/
def base_retriever_rid (r : RetrieverRef) : ℕ := r.hybrid_vector_rid.getD r.rid

/-- The configuration a `ConversationalRetrievalChain.from_llm` call closes
over: the LLM settings, the retriever passed, and the identities of the
memory and prompt objects shared with it. -/
structure ChainSetup where
  llm : LLMSettings
  retriever_rid : ℕ
  memory_id : ℕ
  prompt_id : ℕ
deriving DecidableEq

/-- The state of a `RAGChain` after `__init__` (chain.py lines 20-112), as
far as the claims need it: the stored retriever and names, the LLM actually
held, and the primary chain's configuration. -/
structure RAGChainState where
  retriever : RetrieverRef
  model_name : String
  fallback_models : List String
  use_free_model : Bool
  llm : LLMSettings
  memory_id : ℕ
  prompt_id : ℕ
  chain : ChainSetup
deriving DecidableEq

/-- `RAGChain.__init__` (chain.py lines 20-112).  `free_init_ok` is the
outcome of `get_free_llm` (chain.py lines 50-63: on failure the code falls
through to the OpenAI branch); `primary_init_ok` is the outcome of the
primary `ChatOpenAI` constructor (lines 67-82: on failure the first
fallback model is used instead — the source indexes `fallback_models[0]`,
so that branch assumes a non-empty fallback list; an empty one would raise,
modelled here by keeping `model_name`).  `memory_id` and `prompt_id`
identify the freshly created memory and prompt objects.  Note
`self.model_name` is always the `model_name` argument. -/
def rag_chain_init (retriever : RetrieverRef) (model_name : String)
    (temperature : ℚ) (max_tokens : ℕ) (fallback_models : Option (List String))
    (use_free_model : Bool) (free_model_type : String)
    (free_init_ok : Bool) (primary_init_ok : Bool)
    (memory_id prompt_id : ℕ) : RAGChainState :=
  let fbs := fallback_models.getD ["gpt-3.5-turbo", "gpt-3.5-turbo-16k"]
  let llm : LLMSettings :=
    if use_free_model && free_init_ok then
      ⟨free_model_type, temperature, max_tokens⟩
    else if primary_init_ok then
      ⟨model_name, temperature, max_tokens⟩
    else
      ⟨fbs.headD model_name, temperature, max_tokens⟩
  { retriever := retriever
    model_name := model_name
    fallback_models := fbs
    use_free_model := use_free_model
    llm := llm
    memory_id := memory_id
    prompt_id := prompt_id
    chain := ⟨llm, base_retriever_rid retriever, memory_id, prompt_id⟩ }

/-- The fallback chain built inside `RAGChain.query` (chain.py lines
254-269): a fresh `ChatOpenAI` with the fallback model, temperature 0.2 and
max_tokens 500 hardcoded, over `self.retriever`, reusing `self.memory` and
`self.prompt`. -/
def fallback_chain_setup (st : RAGChainState) (fallback_model : String) : ChainSetup :=
  ⟨⟨fallback_model, 0.2, 500⟩, st.retriever.rid, st.memory_id, st.prompt_id⟩

/-- The fallback loop of `RAGChain.query` (chain.py lines 250-299), after
the primary attempt raised `e`: try each fallback model in list order,
returning on the first success; after the loop the bare `raise` re-raises
the original exception `e`.  `run m` is the outcome of generating with
model `m`; the returned first component is the list of fallback models
actually attempted, in order. -/
def try_fallback_models {E R : Type} (run : String → Except E R) (e : E) :
    List String → List String × Except E (String × R)
  | [] => ([], Except.error e)
  | m :: ms =>
    match run m with
    | Except.ok r => ([m], Except.ok (m, r))
    | Except.error _ =>
      let rest := try_fallback_models run e ms
      (m :: rest.1, rest.2)

/-- `RAGChain.query` (chain.py lines 199-299), abstracted over generation
outcomes: on primary success the response carries `model_used =
self.model_name` (line 240); on a primary exception the fallback loop runs,
a successful fallback response carrying `model_used = fallback_model`
(line 290).  The first component is the list of fallback models attempted;
the `String` in the success value is the response's `model_used` field. -/
def rag_query {E R : Type} (model_name : String) (primary : Except E R)
    (run : String → Except E R) (fallback_models : List String) :
    List String × Except E (String × R) :=
  match primary with
  | Except.ok r => ([], Except.ok (model_name, r))
  | Except.error e => try_fallback_models run e fallback_models

/-- `RAGChain.query` in terms of the chain state: the stored `model_name`
and `fallback_models` are used. -/
def rag_chain_query {E R : Type} (st : RAGChainState) (primary : Except E R)
    (run : String → Except E R) : List String × Except E (String × R) :=
  rag_query st.model_name primary run st.fallback_models

/-! ## Helper lemmas -/

/-- Unfolding the memory-update fold from an arbitrary accumulator. -/
lemma update_memory_foldl (h : List ConversationTurn)
    (hroles : ∀ t ∈ h, t.role = "user" ∨ t.role = "assistant") :
    ∀ acc : List ChatMessage,
      h.foldl
        (fun acc message =>
          if message.role = "user" then acc ++ [⟨"human", message.content⟩]
          else if message.role = "assistant" then acc ++ [⟨"ai", message.content⟩]
          else acc)
        acc
      = acc ++ h.map (fun t => ⟨roleToType t.role, t.content⟩) := by
  induction h with
  | nil => intro acc; simp
  | cons t h ih =>
    intro acc
    have ht := hroles t (by simp)
    have ih' := ih (fun t' ht' => hroles t' (by simp [ht']))
    rcases ht with ht | ht
    · simp [List.foldl_cons, ht, ih', roleToType]
    · have hne : t.role ≠ "user" := by rw [ht]; decide
      simp [List.foldl_cons, ht, hne, ih', roleToType]

/-- A memory update leaves exactly the supplied turns, role-mapped,
whatever the memory held before. -/
lemma update_memory_eq_map (mem : List ChatMessage) (h : List ConversationTurn)
    (hroles : ∀ t ∈ h, t.role = "user" ∨ t.role = "assistant") :
    update_memory mem h = h.map (fun t => ⟨roleToType t.role, t.content⟩) := by
  unfold update_memory
  simpa using update_memory_foldl h hroles []

/-- Unfolding the history-reading fold from an arbitrary accumulator, over
a role-mapped message list. -/
lemma get_history_foldl (h : List ConversationTurn)
    (hroles : ∀ t ∈ h, t.role = "user" ∨ t.role = "assistant") :
    ∀ acc : List ConversationTurn,
      (h.map (fun t => (⟨roleToType t.role, t.content⟩ : ChatMessage))).foldl
        (fun history message =>
          if message.type = "human" then history ++ [⟨"user", message.content⟩]
          else if message.type = "ai" then history ++ [⟨"assistant", message.content⟩]
          else history)
        acc
      = acc ++ h := by
  induction h with
  | nil => intro acc; simp
  | cons t h ih =>
    intro acc
    obtain ⟨role, content⟩ := t
    have ht := hroles ⟨role, content⟩ (by simp)
    have ih' := ih (fun t' ht' => hroles t' (by simp [ht']))
    simp only at ht
    rcases ht with ht | ht <;> subst ht
    · simp [List.map_cons, List.foldl_cons,
        show roleToType "user" = "human" from rfl, ih', List.append_assoc]
    · simp [List.map_cons, List.foldl_cons,
        show roleToType "assistant" = "ai" from rfl, ih', List.append_assoc]

/-- If every fallback model fails, the loop attempts all of them in order
and ends with the original error. -/
lemma try_fallback_models_all_fail {E R : Type} (run : String → Except E R) (e : E) :
    ∀ models : List String, (∀ m ∈ models, ∃ e', run m = Except.error e') →
      try_fallback_models run e models = (models, Except.error e) := by
  intro models
  induction models with
  | nil => intro _; rfl
  | cons m ms ih =>
    intro hall
    obtain ⟨e', hm⟩ := hall m (by simp)
    have ih' := ih (fun m' hm' => hall m' (by simp [hm']))
    simp [try_fallback_models, hm, ih']

/-- If the models before `m` fail and `m` succeeds, the loop attempts
exactly the prefix followed by `m` and returns `m`'s result tagged with
`m`. -/
lemma try_fallback_models_first_success {E R : Type} (run : String → Except E R)
    (e : E) (m : String) (r : R) (ms₂ : List String) (hm : run m = Except.ok r) :
    ∀ ms₁ : List String, (∀ m' ∈ ms₁, ∃ e', run m' = Except.error e') →
      try_fallback_models run e (ms₁ ++ m :: ms₂) =
        (ms₁ ++ [m], Except.ok (m, r)) := by
  intro ms₁
  induction ms₁ with
  | nil => intro _; simp [try_fallback_models, hm]
  | cons m' ms ih =>
    intro hall
    obtain ⟨e', hm'⟩ := hall m' (by simp)
    have ih' := ih (fun x hx => hall x (by simp [hx]))
    simp [try_fallback_models, hm', ih']

/-- The re-ranked list never exceeds `k` elements. -/
lemma rerank_documents_length_le (documents : List Document) (query : String)
    (k : ℕ) : (rerank_documents documents query k).length ≤ k := by
  unfold rerank_documents
  split
  · next h => simp [List.isEmpty_iff.mp h]
  · simp [List.length_take]

/-- Truncating the re-ranked list to `k` again changes nothing. -/
lemma rerank_documents_take (documents : List Document) (query : String)
    (k : ℕ) : (rerank_documents documents query k).take k =
      rerank_documents documents query k :=
  List.take_of_length_le (rerank_documents_length_le documents query k)

/-- The re-ranker is the stable descending sort of the scored list,
truncated to `k` (also for an empty input). -/
lemma rerank_eq_take (documents : List Document) (query : String) (k : ℕ) :
    rerank_documents documents query k =
      (((documents.map fun d => (relevanceScore query d, d)).insertionSort
        scoreGe).map Prod.snd).take k := by
  unfold rerank_documents
  split
  · next h => rw [List.isEmpty_iff.mp h]; simp
  · rfl

/-- The re-ranked output is weakly descending in the relevance score. -/
lemma rerank_pairwise (documents : List Document) (query : String) (k : ℕ) :
    (rerank_documents documents query k).Pairwise
      (fun a b => relevanceScore query b ≤ relevanceScore query a) := by
  rw [rerank_eq_take]
  apply List.Pairwise.sublist (List.take_sublist _ _)
  rw [List.pairwise_map]
  have hsorted : (List.insertionSort scoreGe
      (documents.map fun d => (relevanceScore query d, d))).Pairwise scoreGe :=
    List.sorted_insertionSort scoreGe _
  refine hsorted.imp_of_mem ?_
  intro a b ha hb hab
  have ha' : a ∈ documents.map fun d => (relevanceScore query d, d) :=
    (List.perm_insertionSort scoreGe _).subset ha
  have hb' : b ∈ documents.map fun d => (relevanceScore query d, d) :=
    (List.perm_insertionSort scoreGe _).subset hb
  obtain ⟨da, -, rfl⟩ := List.mem_map.mp ha'
  obtain ⟨db, -, rfl⟩ := List.mem_map.mp hb'
  exact hab

/-- Stability of the re-ranker's sort: two documents with equal scores keep
their input order in the full sorted list. -/
lemma rerank_stable (documents : List Document) (query : String)
    (a b : Document) (hscore : relevanceScore query a = relevanceScore query b)
    (hsub : [a, b].Sublist documents) :
    [a, b].Sublist
      (((documents.map fun d => (relevanceScore query d, d)).insertionSort
        scoreGe).map Prod.snd) := by
  have hsub' : [(relevanceScore query a, a), (relevanceScore query b, b)].Sublist
      (documents.map fun d => (relevanceScore query d, d)) := by
    simpa using List.Sublist.map (fun d => (relevanceScore query d, d)) hsub
  have hpair : scoreGe (relevanceScore query a, a) (relevanceScore query b, b) :=
    le_of_eq hscore.symm
  simpa using List.Sublist.map Prod.snd
    (List.pair_sublist_insertionSort hpair hsub')

/-- The integer (doubled) score is twice the spec's rational score. -/
lemma relevanceScore_cast (query : String) (d : Document) :
    ((relevanceScore query d : ℤ) : ℚ) = 2 * specRelevanceScore query d := by
  simp only [relevanceScore, specRelevanceScore]
  split_ifs <;> push_cast <;> ring

/-- `find?` returns the first element satisfying the predicate when all
earlier elements fail it. -/
lemma find_first_match {α : Type} (p : α → Bool) (x : α) (post : List α)
    (hx : p x = true) :
    ∀ pre : List α, (∀ y ∈ pre, p y = false) →
      (pre ++ x :: post).find? p = some x := by
  intro pre
  induction pre with
  | nil => intro _; simp [List.find?_cons_of_pos, hx]
  | cons y ys ih =>
    intro hall
    have hy := hall y (by simp)
    have ih' := ih (fun z hz => hall z (by simp [hz]))
    simp [List.find?_cons_of_neg, hy, ih']

/-! ## Claims -/

/-- C1: if the primary attempt raises `e` and every configured fallback
model raises on its attempt, `RAGChain.query` attempts exactly the
configured fallback models, once each in list order, and ends by
re-raising the original primary-model error `e`. -/
theorem fallback_chain_exhaustion {E R : Type} (model_name : String) (e : E)
    (run : String → Except E R) (models : List String)
    (hall : ∀ m ∈ models, ∃ e', run m = Except.error e') :
    rag_query model_name (Except.error e) run models =
      (models, Except.error e) := by
  simpa [rag_query] using try_fallback_models_all_fail run e models hall

/-- Witness for C1 at a concrete failing primary and two failing
fallbacks. -/
theorem fallback_chain_exhaustion_witness :
    (∀ m ∈ ["gpt-3.5-turbo", "gpt-3.5-turbo-16k"],
      ∃ e', (fun _ : String => (Except.error "down" : Except String String)) m =
        Except.error e') ∧
    rag_query "gpt-4" (Except.error "boom")
        (fun _ : String => (Except.error "down" : Except String String))
        ["gpt-3.5-turbo", "gpt-3.5-turbo-16k"] =
      (["gpt-3.5-turbo", "gpt-3.5-turbo-16k"], Except.error "boom") :=
  ⟨fun _ _ => ⟨"down", rfl⟩,
   fallback_chain_exhaustion "gpt-4" "boom" _ _ (fun _ _ => ⟨"down", rfl⟩)⟩

/-- C5: whenever the ensemble (fused) retrieval raises, the Hybrid
Retriever returns the vector retriever's outcome for the query; the fusion
failure is never propagated. -/
theorem hybrid_degrades_to_vector {E : Type}
    (ensemble vector : String → Except E (List Document)) (q : String) (e : E)
    (hfail : ensemble q = Except.error e) :
    hybrid_get_relevant_documents ensemble vector q = vector q := by
  unfold hybrid_get_relevant_documents
  rw [hfail]

/-- A concrete document used in several witnesses. -/
def docA : Document := ⟨"skill", [("section", "other")]⟩

/-- A concrete document whose metadata matches the skills filter. -/
def docB : Document := ⟨"unrelated text", [("section", "technical_skills")]⟩

/-- A concrete retrieval outcome returning `[docA, docB]` for any query. -/
def hybrid0 : String → List Document := fun _ => [docA, docB]

/-- A concrete always-failing ensemble retriever. -/
def ensemble0 : String → Except String (List Document) :=
  fun _ => Except.error "keyword index down"

/-- A concrete always-succeeding vector retriever. -/
def vector0 : String → Except String (List Document) :=
  fun _ => Except.ok [docA]

/-- Witness for C5: with a failing ensemble, the hybrid result is the
vector result. -/
theorem hybrid_degrades_to_vector_witness :
    ensemble0 "any query" = Except.error "keyword index down" ∧
    hybrid_get_relevant_documents ensemble0 vector0 "any query" =
      vector0 "any query" :=
  ⟨rfl, hybrid_degrades_to_vector ensemble0 vector0 "any query"
    "keyword index down" rfl⟩

/-- C9: updating memory with a second history (all roles user/assistant)
leaves exactly that history's turns, role-mapped, in order — nothing
carries over from the earlier update or the prior memory content. -/
theorem update_memory_replaces_all (mem : List ChatMessage)
    (h1 h2 : List ConversationTurn)
    (hroles : ∀ t ∈ h2, t.role = "user" ∨ t.role = "assistant") :
    update_memory (update_memory mem h1) h2 =
      h2.map (fun t => ⟨roleToType t.role, t.content⟩) :=
  update_memory_eq_map _ h2 hroles

/-- Witness for C9 at concrete distinct histories. -/
theorem update_memory_replaces_all_witness :
    (∀ t ∈ [(⟨"user", "second"⟩ : ConversationTurn), ⟨"assistant", "reply"⟩],
      t.role = "user" ∨ t.role = "assistant") ∧
    update_memory
        (update_memory [⟨"human", "stale"⟩] [⟨"user", "first"⟩])
        [⟨"user", "second"⟩, ⟨"assistant", "reply"⟩] =
      [⟨"human", "second"⟩, ⟨"ai", "reply"⟩] :=
  ⟨by decide,
   update_memory_replaces_all [⟨"human", "stale"⟩] [⟨"user", "first"⟩]
     [⟨"user", "second"⟩, ⟨"assistant", "reply"⟩] (by decide)⟩

/-- C10: `_update_memory` followed by `get_conversation_history` returns
the supplied history unchanged, whatever the memory held before. -/
theorem memory_history_round_trip (mem : List ChatMessage)
    (h : List ConversationTurn)
    (hroles : ∀ t ∈ h, t.role = "user" ∨ t.role = "assistant") :
    get_conversation_history (update_memory mem h) = h := by
  rw [update_memory_eq_map mem h hroles]
  unfold get_conversation_history
  simpa using get_history_foldl h hroles []

/-- Witness for C10 at a concrete history over a non-empty prior memory. -/
theorem memory_history_round_trip_witness :
    (∀ t ∈ [(⟨"user", "hi"⟩ : ConversationTurn), ⟨"assistant", "hello"⟩,
        ⟨"user", "bye"⟩], t.role = "user" ∨ t.role = "assistant") ∧
    get_conversation_history
        (update_memory [⟨"ai", "old"⟩]
          [⟨"user", "hi"⟩, ⟨"assistant", "hello"⟩, ⟨"user", "bye"⟩]) =
      [⟨"user", "hi"⟩, ⟨"assistant", "hello"⟩, ⟨"user", "bye"⟩] :=
  ⟨by decide,
   memory_history_round_trip [⟨"ai", "old"⟩]
     [⟨"user", "hi"⟩, ⟨"assistant", "hello"⟩, ⟨"user", "bye"⟩] (by decide)⟩

/-- C3: the re-ranker scores each chunk by the spec's formula (the stored
integer score is exactly twice the rational formula value, weights
2 / 5 / 1.5) against the query it is given; its output is the stable
descending sort by that score truncated to `k`: scores are weakly
descending along the output (so a strictly higher-scored chunk precedes a
lower-scored one), and equal-scored chunks keep their input order in the
sorted list. -/
theorem rerank_score_sorted_stable (documents : List Document) (q : String)
    (k : ℕ) :
    (∀ d : Document, ((relevanceScore q d : ℤ) : ℚ) = 2 * specRelevanceScore q d) ∧
    rerank_documents documents q k =
      (((documents.map fun d => (relevanceScore q d, d)).insertionSort
        scoreGe).map Prod.snd).take k ∧
    (rerank_documents documents q k).Pairwise
      (fun a b => relevanceScore q b ≤ relevanceScore q a) ∧
    (∀ a b : Document, relevanceScore q a = relevanceScore q b →
      [a, b].Sublist documents →
      [a, b].Sublist
        (((documents.map fun d => (relevanceScore q d, d)).insertionSort
          scoreGe).map Prod.snd)) :=
  ⟨fun d => relevanceScore_cast q d, rerank_eq_take documents q k,
   rerank_pairwise documents q k,
   fun a b hsc hsub => rerank_stable documents q a b hsc hsub⟩

/-- A document with the same relevance score as `docD0` for query "zzz". -/
def docC0 : Document := ⟨"alpha", []⟩

/-- A second zero-score document, listed after `docC0`. -/
def docD0 : Document := ⟨"alpha beta", []⟩

/-- Witness for C3: two equal-scored documents keep their input order. -/
theorem rerank_score_sorted_stable_witness :
    relevanceScore "zzz" docC0 = relevanceScore "zzz" docD0 ∧
    [docC0, docD0].Sublist [docC0, docD0] ∧
    [docC0, docD0].Sublist
      ((([docC0, docD0].map fun d => (relevanceScore "zzz" d, d)).insertionSort
        scoreGe).map Prod.snd) :=
  ⟨by decide, by decide,
   (rerank_score_sorted_stable [docC0, docD0] "zzz" 10).2.2.2 docC0 docD0
     (by decide) (by decide)⟩

/-- C4: `classify` is a pure deterministic function of the lowercased
query: queries with the same lowercasing classify identically (so
classification is case-insensitive, e.g. "Python skills" versus
"python skills"); the result is "general" exactly when no keyword of any
category occurs in the lowercased query; and it is the category of the
first entry of `QUERY_TYPES` (in its fixed order skills, projects,
experience, education, contact, about, chatbot) with a keyword match when
one exists. -/
theorem classify_deterministic_first_match :
    (∀ q : String, classify q = classify q) ∧
    (∀ q1 q2 : String, toLowerStr q1 = toLowerStr q2 → classify q1 = classify q2) ∧
    classify "Python skills" = classify "python skills" ∧
    (∀ q : String,
      (∀ ck ∈ QUERY_TYPES, ∀ kw ∈ ck.2, substrB kw (toLowerStr q) = false) →
      classify q = "general") ∧
    (∀ (q : String) (pre post : List (String × List String)) (c : String)
        (kws : List String),
      QUERY_TYPES = pre ++ (c, kws) :: post →
      (kws.any fun kw => substrB kw (toLowerStr q)) = true →
      (∀ ck ∈ pre, (ck.2.any fun kw => substrB kw (toLowerStr q)) = false) →
      classify q = c) := by
  refine ⟨fun q => rfl, ?_, by decide, ?_, ?_⟩
  · intro q1 q2 h
    unfold classify
    rw [h]
  · intro q hnone
    have hfind : QUERY_TYPES.find?
        (fun ck => ck.2.any fun kw => substrB kw (toLowerStr q)) = none := by
      rw [List.find?_eq_none]
      intro ck hck
      simp only [List.any_eq_true, not_exists]
      intro kw
      rw [not_and]
      intro hkw
      simp [hnone ck hck kw hkw]
    simp [classify, hfind]
  · intro q pre post c kws heq hany hpre
    have hfind : QUERY_TYPES.find?
        (fun ck => ck.2.any fun kw => substrB kw (toLowerStr q)) = some (c, kws) := by
      rw [heq]
      exact find_first_match _ (c, kws) post hany pre hpre
    simp [classify, hfind]

/-- Witness for C4: the hypothesis-bearing conjuncts applied at concrete
queries ("zzz qqq" matches no keyword; "tell me your projects" matches
the projects list first). -/
theorem classify_deterministic_first_match_witness :
    classify "zzz qqq" = "general" ∧ classify "tell me your projects" = "projects" :=
  ⟨classify_deterministic_first_match.2.2.2.1 "zzz qqq" (by decide),
   classify_deterministic_first_match.2.2.2.2 "tell me your projects"
     [("skills", ["skill", "technology", "programming", "language", "framework", "tool"])]
     [("experience", ["experience", "worked", "job", "role", "position", "internship"]),
      ("education", ["education", "degree", "university", "studied", "graduated"]),
      ("contact", ["contact", "email", "phone", "reach", "linkedin", "github"]),
      ("about", ["about", "who", "background", "summary", "tell me"]),
      ("chatbot", ["chatbot", "how do you work", "what are you", "how does this work"])]
     "projects" ["project", "built", "created", "developed", "work on", "github"]
     (by decide) (by decide) (by decide)⟩

/-- C2: if the re-ranked (pre-filter) list is non-empty, the Smart
Retriever's output is non-empty, and whenever the category metadata filter
would keep nothing, the output is exactly the unfiltered re-ranked list
(which is already truncated to `k`). -/
theorem smart_filter_never_empties (hybrid : String → List Document)
    (q : String) (k : ℕ)
    (hne : rerank_documents (hybrid (expand_query q (classify q))) q k ≠ []) :
    smart_get_relevant_documents hybrid q true k ≠ [] ∧
    ((rerank_documents (hybrid (expand_query q (classify q))) q k).filter
        (docMatchesFilter (get_section_filter (classify q))) = [] →
      smart_get_relevant_documents hybrid q true k =
        rerank_documents (hybrid (expand_query q (classify q))) q k) := by
  have hlen := rerank_documents_length_le (hybrid (expand_query q (classify q))) q k
  have htake := rerank_documents_take (hybrid (expand_query q (classify q))) q k
  have hkpos : 0 < k := by
    rcases Nat.eq_zero_or_pos k with hk | hk
    · subst hk
      exact absurd (List.eq_nil_of_length_eq_zero (Nat.le_zero.mp hlen)) hne
    · exact hk
  simp only [smart_get_relevant_documents]
  split_ifs with hb1 hb2 hb3
  · rw [htake]; exact ⟨hne, fun _ => rfl⟩
  · rw [htake]; exact ⟨hne, fun _ => rfl⟩
  · rw [List.isEmpty_iff] at hb3
    constructor
    · intro hcon
      rw [List.take_eq_nil_iff] at hcon
      rcases hcon with hcon | hcon
      · exact absurd hcon (Nat.pos_iff_ne_zero.mp hkpos)
      · exact hb3 hcon
    · intro hcon
      exact absurd hcon hb3
  · rw [htake]; exact ⟨hne, fun _ => rfl⟩

/-- A retrieval outcome with a single non-matching document. -/
def hybrid1 : String → List Document := fun _ => [docA]

/-- Witness for C2: the query "skill" routes to the skills filter, which
matches nothing in `[docA]`, and the output is the unfiltered list. -/
theorem smart_filter_never_empties_witness :
    rerank_documents (hybrid1 (expand_query "skill" (classify "skill"))) "skill" 3 ≠ [] ∧
    (rerank_documents (hybrid1 (expand_query "skill" (classify "skill"))) "skill" 3).filter
        (docMatchesFilter (get_section_filter (classify "skill"))) = [] ∧
    smart_get_relevant_documents hybrid1 "skill" true 3 ≠ [] ∧
    smart_get_relevant_documents hybrid1 "skill" true 3 =
      rerank_documents (hybrid1 (expand_query "skill" (classify "skill"))) "skill" 3 :=
  ⟨by decide, by decide,
   (smart_filter_never_empties hybrid1 "skill" 3 (by decide)).1,
   (smart_filter_never_empties hybrid1 "skill" 3 (by decide)).2 (by decide)⟩

/-- C6 counterexample: for query "skill" with `k = 1` over `[docA, docB]`,
the source truncates to the top 1 during re-ranking BEFORE filtering, so
the filter sees only `docA` and is discarded, returning `[docA]`; under the
claim's step order (filter the full re-ranked list, truncate last) the
below-top-k chunk `docB` — the only one matching the skills filter — would
be returned.  The two orders give different outputs, refuting the claim. -/
theorem smart_order_counterexample :
    smart_get_relevant_documents hybrid0 "skill" true 1 = [docA] ∧
    smart_get_spec_order hybrid0 "skill" true 1 = [docB] ∧
    docA ≠ docB ∧
    docMatchesFilter (get_section_filter (classify "skill")) docB = true := by
  refine ⟨by decide, by decide, by decide, by decide⟩

/-- C6 amended: truncation to the top `k` happens during re-ranking
(step 3), before the category metadata filter; the filter is applied to the
already-truncated top-`k` list, so every chunk of the Smart Retriever's
output comes from the top-`k` re-ranked candidates, and a chunk ranked
below position `k` never appears in the output. -/
theorem smart_output_within_top_k (hybrid : String → List Document)
    (q : String) (uf : Bool) (k : ℕ) (d : Document)
    (hd : d ∈ smart_get_relevant_documents hybrid q uf k) :
    d ∈ rerank_documents (hybrid (expand_query q (classify q))) q k := by
  simp only [smart_get_relevant_documents] at hd
  split at hd
  · split at hd
    · exact List.mem_of_mem_take hd
    · split at hd
      · exact List.mem_of_mem_take hd
      · exact List.mem_of_mem_filter (List.mem_of_mem_take hd)
  · exact List.mem_of_mem_take hd

/-- Witness for the amended C6 at the concrete input of the
counterexample. -/
theorem smart_output_within_top_k_witness :
    docA ∈ smart_get_relevant_documents hybrid0 "skill" true 1 ∧
    docA ∈ rerank_documents (hybrid0 (expand_query "skill" (classify "skill"))) "skill" 1 :=
  ⟨by decide, smart_output_within_top_k hybrid0 "skill" true 1 docA (by decide)⟩

/-- The chain state of the C7 counterexample: constructed with temperature
0.7 and max_tokens 1000 over a SmartRetriever-like object (id 1) wrapping
vector retriever id 2. -/
def stC7 : RAGChainState :=
  rag_chain_init ⟨1, some 2⟩ "gpt-4" 0.7 1000 none false "huggingface" true true 37 42

/-- C7 counterexample: the fallback chain does NOT reuse the primary
configuration apart from the model: it hardcodes temperature 0.2 and
max_tokens 500 (the primary was built with 0.7 / 1000), and it is built
over the configured retriever object (id 1) while the primary chain uses
the extracted base vector retriever (id 2). -/
theorem fallback_config_counterexample :
    stC7.chain.llm.model = "gpt-4" ∧
    (fallback_chain_setup stC7 "gpt-3.5-turbo").llm.model = "gpt-3.5-turbo" ∧
    stC7.chain.llm.temperature ≠
      (fallback_chain_setup stC7 "gpt-3.5-turbo").llm.temperature ∧
    stC7.chain.llm.max_tokens ≠
      (fallback_chain_setup stC7 "gpt-3.5-turbo").llm.max_tokens ∧
    stC7.chain.retriever_rid ≠
      (fallback_chain_setup stC7 "gpt-3.5-turbo").retriever_rid := by
  refine ⟨by decide, by decide, ?_, by decide, by decide⟩
  show (0.7 : ℚ) ≠ (0.2 : ℚ)
  norm_num

/-- C7 amended: a fallback attempt reuses the same memory and the same
prompt as the primary chain, and differs in the model; but its temperature
and max_tokens are the hardcoded defaults 0.2 and 500 (not the
constructor's settings), and it is built over the full configured
retriever while the primary chain uses the extracted base retriever. -/
theorem fallback_reuses_memory_prompt (r : RetrieverRef) (model_name : String)
    (temperature : ℚ) (max_tokens : ℕ) (fbs : Option (List String)) (ufm : Bool)
    (fmt : String) (fio pio : Bool) (mid pid : ℕ) (m : String) :
    fallback_chain_setup
        (rag_chain_init r model_name temperature max_tokens fbs ufm fmt fio pio mid pid)
        m = ⟨⟨m, 0.2, 500⟩, r.rid, mid, pid⟩ ∧
    (rag_chain_init r model_name temperature max_tokens fbs ufm fmt fio pio mid pid).chain.memory_id
      = mid ∧
    (rag_chain_init r model_name temperature max_tokens fbs ufm fmt fio pio mid pid).chain.prompt_id
      = pid ∧
    (rag_chain_init r model_name temperature max_tokens fbs ufm fmt fio pio mid pid).chain.retriever_rid
      = base_retriever_rid r :=
  ⟨rfl, rfl, rfl, rfl⟩

/-- The chain state of the C8 counterexample: constructed with
`use_free_model = true` and a successfully initialised free model. -/
def stC8 : RAGChainState :=
  rag_chain_init ⟨1, none⟩ "gpt-4" 0.2 500 none true "huggingface" true true 0 0

/-- C8 counterexample: with a free model selected as the primary at
construction time, the LLM that generates is "huggingface", but a
successful primary response reports `model_used = "gpt-4"` (the stored
`model_name`), so `model_used` is not the identifier of the model that
actually generated the answer. -/
theorem model_used_counterexample :
    stC8.llm.model = "huggingface" ∧
    stC8.model_name = "gpt-4" ∧
    rag_chain_query (E := String) (R := String) stC8 (Except.ok "answer")
        (fun _ => Except.error "unused") =
      ([], Except.ok ("gpt-4", "answer")) ∧
    stC8.model_name ≠ stC8.llm.model :=
  ⟨by decide, by decide, rfl, by decide⟩

/-- C8 amended: a successful primary response carries `model_used` equal to
the stored `model_name` field — which names the actual generating model
only when no free model and no construction-time fallback was selected —
and a successful fallback response carries `model_used` equal to the
identifier of the fallback model that produced the answer. -/
theorem model_used_matches_stored_name {E R : Type} (st : RAGChainState)
    (r : R) (run : String → Except E R) (e : E) (ms₁ ms₂ : List String)
    (m : String) (r' : R)
    (h1 : ∀ m' ∈ ms₁, ∃ e', run m' = Except.error e')
    (h2 : run m = Except.ok r') :
    rag_chain_query st (Except.ok r) run = ([], Except.ok (st.model_name, r)) ∧
    rag_query st.model_name (Except.error e) run (ms₁ ++ m :: ms₂) =
      (ms₁ ++ [m], Except.ok (m, r')) := by
  constructor
  · rfl
  · simpa [rag_query] using
      try_fallback_models_first_success run e m r' ms₂ h2 ms₁ h1

/-- A concrete generation oracle: only the model "fb-good" succeeds. -/
def run0 : String → Except String String :=
  fun s => if s = "fb-good" then Except.ok "recovered" else Except.error "down"

/-- Witness for the amended C8: one failing fallback before the succeeding
one; `model_used` is the succeeding fallback's identifier. -/
theorem model_used_matches_stored_name_witness :
    (∀ m' ∈ ["fb-bad"], ∃ e', run0 m' = Except.error e') ∧
    run0 "fb-good" = Except.ok "recovered" ∧
    rag_chain_query stC8 (Except.ok "answer") run0 =
      ([], Except.ok (stC8.model_name, "answer")) ∧
    rag_query stC8.model_name (Except.error "boom") run0
        (["fb-bad"] ++ "fb-good" :: []) =
      (["fb-bad"] ++ ["fb-good"], Except.ok ("fb-good", "recovered")) := by
  have h1 : ∀ m' ∈ ["fb-bad"], ∃ e', run0 m' = Except.error e' := by
    intro m' hm'
    simp only [List.mem_singleton] at hm'
    subst hm'
    exact ⟨"down", rfl⟩
  have h := model_used_matches_stored_name stC8 "answer" run0 "boom" ["fb-bad"]
    [] "fb-good" "recovered" h1 rfl
  exact ⟨h1, rfl, h.1, h.2⟩

end Chatbot
